import Mathlib

/-!
Verification of the rate-acquisition pipeline of the Conversor_Moedas
repository: a shallow embedding in Lean 4 of the conversion engine
(`src/core/conversor.py`), the two-tier cache (`src/core/cache.py`),
the provider manager with ordered fallback (`src/api/manager.py`) and
the keyed provider's envelope handling (`src/api/exchangerate.py`),
together with theorems settling the specification's claims about them.

Conventions of the embedding:
* Python `Decimal` values are modelled by `Dec`: an integer coefficient
  (`mant`) and a power-of-ten exponent (`exp`), exactly `Decimal`'s own
  representation (value = `mant * 10 ^ exp`).  Multiplication is exact
  (as it is in `Decimal` for the coefficient sizes these claims reach;
  the 28-significant-digit context limit of `Decimal` only affects
  products beyond 28 digits, which no claim exercises); division is
  modelled at the default context precision of 28 significant digits
  with round-half-even, as `Decimal.__truediv__` performs it.
* Python `float` is modelled as the exact rational value of the nearest
  IEEE-754 binary64 number (round-to-nearest, ties-to-even, normal
  range), expressed exactly as a `Dec`; `str(float)` is modelled as the
  shortest decimal that converts back to the same binary64 value, which
  is what CPython prints.
* `str.upper().strip()` is modelled over the string's character list
  (ASCII case mapping, which covers currency codes).
* Stateful objects (`CacheManager`) become explicit state records and
  state-passing functions; raised exceptions become `Except` results;
  wall-clock timestamps become integer parameters.
-/

/-! ### Integer arithmetic helpers -/

/-- Fuel-bounded decimal digit counter (`digitsAux fuel n` = number of
decimal digits of `n`, with `digitsAux _ 0 = 0`). -/
def digitsAux : ℕ → ℕ → ℕ
  | 0, _ => 0
  | fuel + 1, n => if n = 0 then 0 else digitsAux fuel (n / 10) + 1

/-- Number of decimal digits of a natural number (0 for 0). -/
def digitCount (n : ℕ) : ℕ := digitsAux 600 n

/-- Integer division of `a` by positive `b`, rounded to the nearest
integer with ties to even: the rounding of IEEE-754 binary64 and of
`Decimal`'s default `ROUND_HALF_EVEN` context. -/
def divRoundHalfEven (a b : ℤ) : ℤ :=
  let q := a.fdiv b
  let r := a - q * b
  if 2 * r < b then q
  else if b < 2 * r then q + 1
  else if q % 2 = 0 then q else q + 1

/-- Integer division of `a` by positive `b`, rounded to the nearest
integer with ties away from zero: Python's `decimal.ROUND_HALF_UP`. -/
def divRoundHalfUp (a b : ℤ) : ℤ :=
  if 0 ≤ a then (2 * a + b).fdiv (2 * b)
  else -((2 * (-a) + b).fdiv (2 * b))

/-! ### The decimal data type -/

/-- A decimal number, exactly as Python's `Decimal` represents it:
an integer coefficient and a power-of-ten exponent.  The denoted value
is `mant * 10 ^ exp`. -/
structure Dec where
  mant : ℤ
  exp : ℤ
  deriving DecidableEq, Repr

/-- Value equality of two decimals (Python `Decimal.__eq__`), decided
by aligning the exponents. -/
def Dec.veq (a b : Dec) : Bool :=
  if a.exp ≤ b.exp then a.mant == b.mant * 10 ^ (b.exp - a.exp).toNat
  else a.mant * 10 ^ (a.exp - b.exp).toNat == b.mant

/-- Exact decimal multiplication (`Decimal.__mul__`: coefficients
multiply, exponents add). -/
def Dec.mul (a b : Dec) : Dec := ⟨a.mant * b.mant, a.exp + b.exp⟩

/-- `Decimal.quantize(Decimal('0.01'), rounding=ROUND_HALF_UP)`
(`src/core/conversor.py` line 149): rescale to exponent `-2`, rounding
half away from zero. -/
def quantize2 (d : Dec) : Dec :=
  let k := -2 - d.exp
  if k ≤ 0 then ⟨d.mant * 10 ^ (-k).toNat, -2⟩
  else ⟨divRoundHalfUp d.mant (10 ^ k.toNat), -2⟩

/-- Strip trailing zeros from an exact quotient down to the ideal
exponent, as `Decimal` division does for exact results. -/
def stripZerosAux : ℕ → ℤ → ℤ → ℤ → ℤ × ℤ
  | 0, q, e, _ => (q, e)
  | fuel + 1, q, e, ideal =>
    if e < ideal ∧ q % 10 = 0 then stripZerosAux fuel (q / 10) (e + 1) ideal
    else (q, e)

/-- Decimal division at `p` significant digits, round-half-even, with
exact quotients reduced toward the ideal exponent: the behaviour of
`Decimal.__truediv__` under a context of precision `p`.  Division of or
by zero yields 0 here (the only call site, `src/core/conversor.py` line
158, guards `taxa != 0`; the dividend there is the literal 1). -/
def divDecPrec (p : ℕ) (a b : Dec) : Dec :=
  if a.mant = 0 ∨ b.mant = 0 then ⟨0, 0⟩
  else
    let A := |a.mant|
    let B := |b.mant|
    let sgn : ℤ := if (0 < a.mant) = (0 < b.mant) then 1 else -1
    let ideal := a.exp - b.exp
    let t : ℤ := (p : ℤ) + (digitCount B.natAbs : ℤ) - (digitCount A.natAbs : ℤ)
    let nd : ℤ × ℤ := if 0 ≤ t then (A * 10 ^ t.toNat, B) else (A, B * 10 ^ (-t).toNat)
    let q := divRoundHalfEven nd.1 nd.2
    let te : ℤ × ℤ :=
      if q < 10 ^ p then (t, q)
      else
        let t1 := t - 1
        let nd1 : ℤ × ℤ :=
          if 0 ≤ t1 then (A * 10 ^ t1.toNat, B) else (A, B * 10 ^ (-t1).toNat)
        (t1, divRoundHalfEven nd1.1 nd1.2)
    let exact := nd.1 % nd.2 = 0
    let qe :=
      if exact then stripZerosAux p te.2 (ideal - te.1) ideal
      else (te.2, ideal - te.1)
    ⟨sgn * qe.1, qe.2⟩

/-- Decimal division at the default context precision of 28 significant
digits: `Decimal(str(1)) / taxa` in `src/core/conversor.py` line 158. -/
def divDec28 (a b : Dec) : Dec := divDecPrec 28 a b

/-! ### Model of Python `float` and `str(float)` -/

/-- Fuel-bounded floor of the binary logarithm of the positive fraction
`n / d`: doubles the smaller side until `d ≤ n < 2 * d`, accumulating
the exponent. -/
def ilog2Frac : ℕ → ℤ → ℤ → ℤ → ℤ
  | 0, _, _, acc => acc
  | fuel + 1, n, d, acc =>
    if n < d then ilog2Frac fuel (2 * n) d (acc - 1)
    else if 2 * d ≤ n then ilog2Frac fuel n (2 * d) (acc + 1)
    else acc

/-- A decimal as an integer fraction `(numerator, positive denominator)`. -/
def fracOf (d : Dec) : ℤ × ℤ :=
  if 0 ≤ d.exp then (d.mant * 10 ^ d.exp.toNat, 1) else (d.mant, 10 ^ (-d.exp).toNat)

/-- The exact value of the IEEE-754 binary64 number nearest to the
decimal `d` (round-to-nearest, ties-to-even), expressed exactly as a
decimal, for `d` in the binary64 normal range.  Models Python's
`float(Decimal)`: `src/core/conversor.py` line 141 stores
`float(taxa)` in the cache. -/
def toFloat53 (d : Dec) : Dec :=
  if d.mant = 0 then ⟨0, 0⟩
  else
    let nd := fracOf d
    let a : ℤ := |nd.1|
    let e := ilog2Frac 4400 a nd.2 0
    let s := 52 - e
    let m :=
      if 0 ≤ s then divRoundHalfEven (a * 2 ^ s.toNat) nd.2
      else divRoundHalfEven a (nd.2 * 2 ^ (-s).toNat)
    let sgn : ℤ := if d.mant < 0 then -1 else 1
    let ee := e - 52
    if 0 ≤ ee then ⟨sgn * m * 2 ^ ee.toNat, 0⟩
    else ⟨sgn * m * 5 ^ (-ee).toNat, ee⟩

/-- Floor of the decimal logarithm of a nonzero decimal. -/
def ilog10D (d : Dec) : ℤ := (digitCount d.mant.natAbs : ℤ) - 1 + d.exp

/-- Round a decimal to `nsig` significant digits, ties to even. -/
def roundSig (nsig : ℕ) (x : Dec) : Dec :=
  if x.mant = 0 then ⟨0, 0⟩
  else
    let newExp := ilog10D x - nsig + 1
    let k := newExp - x.exp
    if k ≤ 0 then ⟨x.mant * 10 ^ (-k).toNat, newExp⟩
    else ⟨divRoundHalfEven x.mant (10 ^ k.toNat), newExp⟩

/-- Search, by increasing significant-digit count, for the shortest
decimal whose binary64 value is `x`. -/
def shortestDecAux (x : Dec) : ℕ → ℕ → Dec
  | 0, _ => x
  | fuel + 1, nsig =>
    let c := roundSig nsig x
    if Dec.veq (toFloat53 c) x then c else shortestDecAux x fuel (nsig + 1)

/-- The decimal CPython's `str`/`repr` prints for the binary64 value
`x`: the shortest decimal that converts back to exactly `x` (17
significant digits always suffice for binary64).  `Decimal(str(taxa))`
on a cached float (`src/core/conversor.py` line 143) is modelled as
`floatRepr` of the stored float value. -/
def floatRepr (x : Dec) : Dec := shortestDecAux x 17 1

/-! ### String normalization (`.upper().strip()`) -/

/-- Python `str.upper()` over the character list (ASCII case map, which
covers currency codes). -/
def pyUpper (s : String) : String := ⟨s.data.map Char.toUpper⟩

/-- Python `str.strip()`: drop leading and trailing whitespace. -/
def pyStrip (s : String) : String :=
  ⟨((s.data.dropWhile Char.isWhitespace).reverse.dropWhile Char.isWhitespace).reverse⟩

/-- The entry-point normalization `.upper().strip()` applied to both
currency codes (`src/core/conversor.py` lines 126–127, 194–195). -/
def normCode (s : String) : String := pyStrip (pyUpper s)

/-! ### CacheManager (`src/core/cache.py`) -/

/-- State of one persisted cache file as the next read will see it:
a decodable `{timestamp, value}` payload, or an undecodable/corrupt
payload (malformed JSON, missing key, bad timestamp — the
`except (json.JSONDecodeError, KeyError, ValueError)` arm of `get`). -/
inductive DiskEntry where
  | entry (ts : ℤ) (v : Dec)
  | corrupt
  deriving DecidableEq

/-- The two tiers of `CacheManager`: the in-memory dicts
`_memory_cache` and `_timestamps`, and the on-disk files keyed by
cache key.  Cached values in this program are Python floats, carried
here as their exact decimal value. -/
structure CacheState where
  mem : String → Option Dec
  memTs : String → Option ℤ
  disk : String → Option DiskEntry

/-- Pointwise update of a string-keyed map. -/
def upd {α : Type} (f : String → Option α) (k : String) (v : Option α) :
    String → Option α :=
  fun k' => if k' = k then v else f k'

/-- The empty cache (fresh `CacheManager` with no files). -/
def emptyCache : CacheState := ⟨fun _ => none, fun _ => none, fun _ => none⟩

/-- A process restart: the in-memory tiers are gone, the disk tier
survives. -/
def freshProcess (c : CacheState) : CacheState := ⟨fun _ => none, fun _ => none, c.disk⟩

/-- `CacheManager.delete` (`src/core/cache.py` lines 77–82): remove the
key from memory, timestamps and disk. -/
def CacheManager.delete (c : CacheState) (key : String) : CacheState :=
  ⟨upd c.mem key none, upd c.memTs key none, upd c.disk key none⟩

/-- `CacheManager.get` (`src/core/cache.py` lines 32–59).  Memory tier
first: a present, unexpired entry is returned; a present entry whose
timestamp is missing or aged `≥ ttl` is deleted from both tiers
(`self.delete`).  Otherwise the disk tier: a decodable, unexpired
payload is promoted into memory (value and disk timestamp) and
returned; an expired or undecodable payload has its file unlinked.
Expiry is `now - timestamp < ttl` being false, matching `_is_valid`
and the disk check.  The function is total: no branch raises. -/
def CacheManager.get (ttl now : ℤ) (c : CacheState) (key : String) :
    Option Dec × CacheState :=
  match c.mem key with
  | some v =>
    match c.memTs key with
    | some ts =>
      if now - ts < ttl then (some v, c) else (none, CacheManager.delete c key)
    | none => (none, CacheManager.delete c key)
  | none =>
    match c.disk key with
    | some (.entry ts v) =>
      if now - ts < ttl then
        (some v, ⟨upd c.mem key (some v), upd c.memTs key (some ts), c.disk⟩)
      else (none, ⟨c.mem, c.memTs, upd c.disk key none⟩)
    | some .corrupt => (none, ⟨c.mem, c.memTs, upd c.disk key none⟩)
    | none => (none, c)

/-- `CacheManager.set` (`src/core/cache.py` lines 61–75), completed:
memory value and timestamp written, then the disk payload written. -/
def CacheManager.set (now : ℤ) (c : CacheState) (key : String) (v : Dec) : CacheState :=
  ⟨upd c.mem key (some v), upd c.memTs key (some now),
    upd c.disk key (some (.entry now v))⟩

/-- The state left by `CacheManager.set` after `completed` of its three
primitive steps, modelling a write that fails partway.  Step 1 writes
the memory dicts (lines 66–67).  Step 2 is `open(cache_file, 'w')`
(line 71), which truncates the file in place — there is no temporary
file — so a failure of the subsequent `json.dump` leaves the file
undecodable.  Step 3 is the completed `json.dump` (lines 72–75). -/
def CacheManager.setSteps (now : ℤ) (c : CacheState) (key : String) (v : Dec)
    (completed : ℕ) : CacheState :=
  if completed = 0 then c
  else if completed = 1 then
    ⟨upd c.mem key (some v), upd c.memTs key (some now), c.disk⟩
  else if completed = 2 then
    ⟨upd c.mem key (some v), upd c.memTs key (some now),
      upd c.disk key (some .corrupt)⟩
  else CacheManager.set now c key v

/-! ### APIManager (`src/api/manager.py`) -/

/-- A configured provider client as the fallback loop sees it for one
operation: its `nome` and the outcome of calling the requested method
(a value, or the message of the `APIError` it raises). -/
structure Client where
  nome : String
  resultado : Except String Dec

/-- The loop body of `APIManager._executar_com_fallback`
(`src/api/manager.py` lines 55–76), with the accumulated error strings,
the names of the clients already tried, and the clients still to try.
Returns the outcome (the aggregate error carries the message and the
`details={"errors": errors}` list) and the full invocation log. -/
def APIManager.fallbackAux :
    List String → List String → List Client →
    Except (String × List String) Dec × List String
  | errors, tried, [] =>
    (.error ("Todas as APIs falharam: " ++ String.intercalate "; " errors, errors),
      tried)
  | errors, tried, client :: rest =>
    match client.resultado with
    | .ok v => (.ok v, tried ++ [client.nome])
    | .error e =>
      APIManager.fallbackAux (errors ++ [client.nome ++ ": " ++ e])
        (tried ++ [client.nome]) rest

/-- `APIManager._executar_com_fallback` over an ordered client list. -/
def APIManager.executarComFallback (clients : List Client) :
    Except (String × List String) Dec × List String :=
  APIManager.fallbackAux [] [] clients

/-! ### ExchangeRateClient envelope handling (`src/api/exchangerate.py`) -/

/-- The fields of an ExchangeRate-API response envelope that
`_tratar_erro` and `obter_taxa_par` inspect: the `result` field, the
`error-type` field, and the `conversion_rate` payload (each absent when
the key is missing). -/
structure ERResponse where
  result : Option String
  errorType : Option String
  conversionRate : Option Dec

/-- The fixed message table of `_tratar_erro`
(`src/api/exchangerate.py` lines 37–42). -/
def ExchangeRateClient.mensagens (t : String) : Option String :=
  if t = "invalid-key" then some "API key inválida"
  else if t = "inactive-account" then some "Conta inativa"
  else if t = "quota-reached" then some "Limite de requisições atingido"
  else if t = "unsupported-code" then some "Moeda não suportada"
  else none

/-- `ExchangeRateClient._tratar_erro` (`src/api/exchangerate.py` lines
32–47): when `data.get("result") == "error"`, raise `APIError` with the
mapped message, falling back to the generic message for unknown
`error-type`s; otherwise do nothing.  The check depends only on the
parsed body, not on the HTTP status. -/
def ExchangeRateClient.tratarErro (data : ERResponse) : Except String Unit :=
  if data.result = some "error" then
    let t := data.errorType.getD "unknown"
    .error ((ExchangeRateClient.mensagens t).getD ("Erro da API: " ++ t))
  else .ok ()

/-- `ExchangeRateClient.obter_taxa_par` (`src/api/exchangerate.py`
lines 57–66) after the HTTP layer returned a parsed body: envelope
check, then the `conversion_rate` payload. -/
def ExchangeRateClient.obterTaxaPar (data : ERResponse) : Except String Dec :=
  match ExchangeRateClient.tratarErro data with
  | .error e => .error e
  | .ok _ =>
    match data.conversionRate with
    | none => .error "Taxa não encontrada na resposta"
    | some t => .ok t

/-! ### ConversorMoedas (`src/core/conversor.py`) -/

/-- The exceptions `converter` can raise, by construction site:
the two `ValueError`s of the validation block (lines 122–130), a
propagated `APIError`, and the pydantic `ValidationError` raised when
the `Conversao` model's constraints fail. -/
inductive ConvError where
  | invalidAmount
  | sameCurrency
  | apiError (msg : String)
  | validationError
  deriving DecidableEq

/-- The `Conversao` pydantic model (`src/core/models.py` lines 36–48),
restricted to the fields `converter` fills. -/
structure Conversao where
  valor_original : Dec
  valor_convertido : Dec
  moeda_origem : String
  moeda_destino : String
  taxa : Dec
  taxa_inversa : Dec
  deriving DecidableEq

/-- Construction of a `Conversao` with pydantic validation: both
`valor_original` and `valor_convertido` are declared `Field(..., gt=0)`
(`src/core/models.py` lines 41–42); violation raises a
`ValidationError`.  `taxa` and `taxa_inversa` carry no constraint. -/
def Conversao.validado (vo vc : Dec) (mo md : String) (t ti : Dec) :
    Except ConvError Conversao :=
  if 0 < vo.mant ∧ 0 < vc.mant then .ok ⟨vo, vc, mo, md, t, ti⟩
  else .error .validationError

/-- The provider side as `converter` sees it: the outcome of
`self.api.obter_taxa_par` (a rate, or the message of the raised
`APIError`). -/
structure APIEnv where
  obterTaxaPar : String → String → Except String Dec

/-- The cache key `f"taxa:{de_moeda}:{para_moeda}"`
(`src/core/conversor.py` line 136). -/
def keyFor (de para : String) : String := "taxa:" ++ de ++ ":" ++ para

/-- The computation block of `converter` (`src/core/conversor.py`
lines 146–159) given the effective `taxa`: the product quantized to two
places half-up, the inverse at full context precision guarded by
`taxa != 0`, and the validated `Conversao`. -/
def converterCompute (valor taxa : Dec) (de para : String) :
    Except ConvError Conversao :=
  let resultado := quantize2 (Dec.mul valor taxa)
  let inversa := if taxa.mant ≠ 0 then divDec28 ⟨1, 0⟩ taxa else ⟨0, 0⟩
  Conversao.validado valor resultado de para taxa inversa

/-- `ConversorMoedas.converter` (`src/core/conversor.py` lines
103–175), with the database save (`salvar`) outside the model.
Returns the outcome, the cache state after the call, and whether the
provider was called.  The amount check precedes normalization; the
same-currency check follows it; on a cache miss the fetched rate is
stored as `float(taxa)` before computing; on a hit the rate is
`Decimal(str(cached_float))`. -/
def ConversorMoedas.converter (env : APIEnv) (ttl now : ℤ) (cache : CacheState)
    (valor : Dec) (de_moeda para_moeda : String) :
    Except ConvError Conversao × CacheState × Bool :=
  if valor.mant ≤ 0 then (.error .invalidAmount, cache, false)
  else
    let de := normCode de_moeda
    let para := normCode para_moeda
    if de = para then (.error .sameCurrency, cache, false)
    else
      match CacheManager.get ttl now cache (keyFor de para) with
      | (some cachedFloat, c1) =>
        (converterCompute valor (floatRepr cachedFloat) de para, c1, false)
      | (none, c1) =>
        match env.obterTaxaPar de para with
        | .error e => (.error (.apiError e), c1, true)
        | .ok taxa =>
          let c2 := CacheManager.set now c1 (keyFor de para) (toFloat53 taxa)
          (converterCompute valor taxa de para, c2, true)

/-- The `ConversaoMultipla` pydantic model (`src/core/models.py` lines
65–73), restricted to the fields `converter_multiplo` fills; note that
`valor_original` carries no positivity constraint there. -/
structure ConversaoMultipla where
  valor_original : Dec
  moeda_origem : String
  conversoes : List Conversao

/-- The loop of `converter_multiplo` (`src/core/conversor.py` lines
199–207) over the normalized target list, threading the cache: a target
equal to the (normalized) source is skipped; a target whose `converter`
call raises is logged and omitted; successes are collected in order. -/
def ConversorMoedas.multiploAux (env : APIEnv) (ttl now : ℤ) (valor : Dec)
    (de : String) : CacheState → List String → List Conversao × CacheState
  | cache, [] => ([], cache)
  | cache, m :: rest =>
    if m = de then ConversorMoedas.multiploAux env ttl now valor de cache rest
    else
      match ConversorMoedas.converter env ttl now cache valor de m with
      | (.ok conv, c1, _) =>
        let tail := ConversorMoedas.multiploAux env ttl now valor de c1 rest
        (conv :: tail.1, tail.2)
      | (.error _, c1, _) => ConversorMoedas.multiploAux env ttl now valor de c1 rest

/-- `ConversorMoedas.converter_multiplo` (`src/core/conversor.py` lines
177–220), with the database save outside the model: normCode the
source and every target, run the loop, and assemble the (unvalidated)
batch model. -/
def ConversorMoedas.converterMultiplo (env : APIEnv) (ttl now : ℤ)
    (cache : CacheState) (valor : Dec) (de_moeda : String)
    (para_moedas : List String) : ConversaoMultipla × CacheState :=
  let de := normCode de_moeda
  let paras := para_moedas.map normCode
  let r := ConversorMoedas.multiploAux env ttl now valor de cache paras
  (⟨valor, de, r.1⟩, r.2)

/-! ### Helper lemmas about `converter` -/

/-- Unfolding lemma: a non-positive amount fails `InvalidAmount` with no
state change and no provider call. -/
theorem converter_nonpos {env : APIEnv} {ttl now : ℤ} {cache : CacheState}
    {valor : Dec} {de para : String} (h : valor.mant ≤ 0) :
    ConversorMoedas.converter env ttl now cache valor de para
      = (.error .invalidAmount, cache, false) := by
  simp [ConversorMoedas.converter, h]

/-- Unfolding lemma: equal normalized codes fail `SameCurrency` with no
state change and no provider call. -/
theorem converter_sameCode {env : APIEnv} {ttl now : ℤ} {cache : CacheState}
    {valor : Dec} {de para : String} (h : ¬ valor.mant ≤ 0)
    (he : normCode de = normCode para) :
    ConversorMoedas.converter env ttl now cache valor de para
      = (.error .sameCurrency, cache, false) := by
  simp [ConversorMoedas.converter, h, he]

/-- Shape of a successful `converterCompute`. -/
theorem converterCompute_ok {valor taxa : Dec} {de para : String} {conv : Conversao}
    (h : converterCompute valor taxa de para = .ok conv) :
    conv = ⟨valor, quantize2 (Dec.mul valor taxa), de, para, taxa,
        if taxa.mant ≠ 0 then divDec28 ⟨1, 0⟩ taxa else ⟨0, 0⟩⟩
    ∧ 0 < valor.mant ∧ 0 < (quantize2 (Dec.mul valor taxa)).mant := by
  by_cases hpos : 0 < valor.mant ∧ 0 < (quantize2 (Dec.mul valor taxa)).mant
  · simp only [converterCompute, Conversao.validado, if_pos hpos] at h
    injection h with h1
    exact ⟨h1.symm, hpos.1, hpos.2⟩
  · simp only [converterCompute, Conversao.validado, if_neg hpos] at h
    simp at h

/-- Field description of every `Conversao` that `converter` returns. -/
theorem converter_ok_fields {env : APIEnv} {ttl now : ℤ} {cache : CacheState}
    {valor : Dec} {de para : String} {conv : Conversao} {c' : CacheState} {b : Bool}
    (h : ConversorMoedas.converter env ttl now cache valor de para = (.ok conv, c', b)) :
    conv.valor_original = valor ∧ conv.moeda_origem = normCode de
    ∧ conv.moeda_destino = normCode para
    ∧ conv.valor_convertido = quantize2 (Dec.mul valor conv.taxa)
    ∧ conv.taxa_inversa = (if conv.taxa.mant ≠ 0 then divDec28 ⟨1, 0⟩ conv.taxa else ⟨0, 0⟩)
    ∧ 0 < valor.mant ∧ 0 < conv.valor_convertido.mant := by
  unfold ConversorMoedas.converter at h
  by_cases h0 : valor.mant ≤ 0
  · simp [h0] at h
  · rw [if_neg h0] at h
    by_cases he : normCode de = normCode para
    · simp [he] at h
    · rw [if_neg he] at h
      rcases hget : CacheManager.get ttl now cache (keyFor (normCode de) (normCode para))
        with ⟨o, c1⟩
      rw [hget] at h
      cases o with
      | some f =>
        have h1 : converterCompute valor (floatRepr f) (normCode de) (normCode para)
            = .ok conv := congrArg Prod.fst h
        obtain ⟨hc, _, hq⟩ := converterCompute_ok h1
        subst hc
        simp_all
      | none =>
        cases hapi : env.obterTaxaPar (normCode de) (normCode para) with
        | error e =>
          rw [hapi] at h
          simp at h
        | ok taxa =>
          rw [hapi] at h
          have h1 : converterCompute valor taxa (normCode de) (normCode para)
              = .ok conv := congrArg Prod.fst h
          obtain ⟨hc, _, hq⟩ := converterCompute_ok h1
          subst hc
          simp_all

/-! ### Claim theorems: validation and computation (C6, C1, C9) -/

/-- Claim C6: for every amount ≤ 0, `converter` fails with
`InvalidAmount` before any currency processing (the result holds for
arbitrary currency strings and the amount check precedes
normalization); and for every amount > 0 whose normalized source and
target codes coincide, `converter` fails with `SameCurrency`; in both
cases the cache state is unchanged and no provider call is made. -/
theorem claim_C6 :
    ∀ (env : APIEnv) (ttl now : ℤ) (cache : CacheState) (valor : Dec)
      (de para : String),
    (valor.mant ≤ 0 →
      ConversorMoedas.converter env ttl now cache valor de para
        = (.error .invalidAmount, cache, false))
    ∧ (0 < valor.mant → normCode de = normCode para →
      ConversorMoedas.converter env ttl now cache valor de para
        = (.error .sameCurrency, cache, false)) := by
  intro env ttl now cache valor de para
  exact ⟨fun h => converter_nonpos h,
    fun h he => converter_sameCode (not_le.mpr h) he⟩

/-- Witness for C6 at the spec's own examples: `convert(-5, USD, BRL)`
and `convert(0, USD, BRL)` fail `InvalidAmount`; `convert(100, USD,
USD)` fails `SameCurrency`; each leaves the cache untouched and makes
no provider call. -/
theorem claim_C6_witness :
    ConversorMoedas.converter ⟨fun _ _ => .error "down"⟩ 3600 0 emptyCache
        ⟨-5, 0⟩ "USD" "BRL" = (.error .invalidAmount, emptyCache, false)
    ∧ ConversorMoedas.converter ⟨fun _ _ => .error "down"⟩ 3600 0 emptyCache
        ⟨0, 0⟩ "USD" "BRL" = (.error .invalidAmount, emptyCache, false)
    ∧ ConversorMoedas.converter ⟨fun _ _ => .error "down"⟩ 3600 0 emptyCache
        ⟨100, 0⟩ "USD" "USD" = (.error .sameCurrency, emptyCache, false) :=
  ⟨(claim_C6 ⟨fun _ _ => .error "down"⟩ 3600 0 emptyCache ⟨-5, 0⟩ "USD" "BRL").1
      (by decide),
    (claim_C6 ⟨fun _ _ => .error "down"⟩ 3600 0 emptyCache ⟨0, 0⟩ "USD" "BRL").1
      (by decide),
    (claim_C6 ⟨fun _ _ => .error "down"⟩ 3600 0 emptyCache ⟨100, 0⟩ "USD" "USD").2
      (by decide) rfl⟩

/-- Claim C1: every successful `converter` result has
`valor_convertido` equal to the amount times the rate quantized to two
decimal places with round-half-up, and `taxa_inversa` equal to the
decimal division `1 / taxa` at the full 28-digit context precision
(`0` when the rate is zero), not quantized to two places; in the spec's
scenario (rate 5.0745, amount 100) the converted amount is exactly
507.45 and the inverse 0.1970637501231648438269780274, which differs
from its own two-place quantization. -/
theorem claim_C1 :
    (∀ (env : APIEnv) (ttl now : ℤ) (cache : CacheState) (valor : Dec)
      (de para : String) (conv : Conversao) (c' : CacheState) (b : Bool),
      ConversorMoedas.converter env ttl now cache valor de para = (.ok conv, c', b) →
      conv.valor_original = valor
      ∧ conv.valor_convertido = quantize2 (Dec.mul conv.valor_original conv.taxa)
      ∧ conv.taxa_inversa
          = (if conv.taxa.mant ≠ 0 then divDec28 ⟨1, 0⟩ conv.taxa else ⟨0, 0⟩))
    ∧ (ConversorMoedas.converter ⟨fun _ _ => .ok ⟨50745, -4⟩⟩ 3600 0 emptyCache
          ⟨100, 0⟩ "USD" "BRL").1
        = .ok ⟨⟨100, 0⟩, ⟨50745, -2⟩, "USD", "BRL", ⟨50745, -4⟩,
            ⟨1970637501231648438269780274, -28⟩⟩
    ∧ Dec.veq (quantize2 ⟨1970637501231648438269780274, -28⟩)
        ⟨1970637501231648438269780274, -28⟩ = false := by
  refine ⟨?_, rfl, by decide⟩
  intro env ttl now cache valor de para conv c' b h
  obtain ⟨h1, _, _, h4, h5, _, _⟩ := converter_ok_fields h
  exact ⟨h1, by rw [h4, h1], h5⟩

/-- Witness for C1: the general part applied to the spec's scenario
(rate 5.0745, amount 100, USD → BRL on an empty cache). -/
theorem claim_C1_witness :
    (Conversao.mk ⟨100, 0⟩ ⟨50745, -2⟩ "USD" "BRL" ⟨50745, -4⟩
        ⟨1970637501231648438269780274, -28⟩).valor_original = ⟨100, 0⟩
    ∧ (Conversao.mk ⟨100, 0⟩ ⟨50745, -2⟩ "USD" "BRL" ⟨50745, -4⟩
        ⟨1970637501231648438269780274, -28⟩).valor_convertido
      = quantize2 (Dec.mul ⟨100, 0⟩ ⟨50745, -4⟩)
    ∧ (Conversao.mk ⟨100, 0⟩ ⟨50745, -2⟩ "USD" "BRL" ⟨50745, -4⟩
        ⟨1970637501231648438269780274, -28⟩).taxa_inversa
      = (if (50745 : ℤ) ≠ 0 then divDec28 ⟨1, 0⟩ ⟨50745, -4⟩ else ⟨0, 0⟩) :=
  claim_C1.1 ⟨fun _ _ => .ok ⟨50745, -4⟩⟩ 3600 0 emptyCache ⟨100, 0⟩ "USD" "BRL"
    ⟨⟨100, 0⟩, ⟨50745, -2⟩, "USD", "BRL", ⟨50745, -4⟩,
      ⟨1970637501231648438269780274, -28⟩⟩ _ _ rfl

/-- Claim C9: every `Conversao` that `converter` actually returns has
strictly positive original and converted amounts (the pydantic model
requires both `gt=0`); when the product rounds to 0.00 at two places —
amount 0.001 at rate 1 — `converter` raises the validation error
instead of returning a zero converted amount. -/
theorem claim_C9 :
    (∀ (env : APIEnv) (ttl now : ℤ) (cache : CacheState) (valor : Dec)
      (de para : String) (conv : Conversao) (c' : CacheState) (b : Bool),
      ConversorMoedas.converter env ttl now cache valor de para = (.ok conv, c', b) →
      0 < conv.valor_convertido.mant ∧ 0 < conv.valor_original.mant)
    ∧ (ConversorMoedas.converter ⟨fun _ _ => .ok ⟨1, 0⟩⟩ 3600 0 emptyCache
          ⟨1, -3⟩ "USD" "BRL").1 = .error .validationError
    ∧ quantize2 (Dec.mul ⟨1, -3⟩ ⟨1, 0⟩) = ⟨0, -2⟩ := by
  refine ⟨?_, rfl, by decide⟩
  intro env ttl now cache valor de para conv c' b h
  obtain ⟨h1, _, _, _, _, h6, h7⟩ := converter_ok_fields h
  exact ⟨h7, by rw [h1]; exact h6⟩

/-- Witness for C9: the general positivity applied to the 5.0745
scenario conversion. -/
theorem claim_C9_witness :
    0 < (Conversao.mk ⟨100, 0⟩ ⟨50745, -2⟩ "USD" "BRL" ⟨50745, -4⟩
        ⟨1970637501231648438269780274, -28⟩).valor_convertido.mant
    ∧ 0 < (Conversao.mk ⟨100, 0⟩ ⟨50745, -2⟩ "USD" "BRL" ⟨50745, -4⟩
        ⟨1970637501231648438269780274, -28⟩).valor_original.mant :=
  claim_C9.1 ⟨fun _ _ => .ok ⟨50745, -4⟩⟩ 3600 0 emptyCache ⟨100, 0⟩ "USD" "BRL"
    ⟨⟨100, 0⟩, ⟨50745, -2⟩, "USD", "BRL", ⟨50745, -4⟩,
      ⟨1970637501231648438269780274, -28⟩⟩ _ _ rfl

/-! ### Claim theorem: provider fallback (C3) -/

/-- Accumulator lemma: when every remaining client fails, the loop
returns the aggregate error over all accumulated messages, in order,
having tried every client. -/
theorem fallbackAux_allFail :
    ∀ (fails : List (String × String)) (errors tried : List String),
    APIManager.fallbackAux errors tried (fails.map fun pe => ⟨pe.1, .error pe.2⟩)
      = (.error ("Todas as APIs falharam: " ++ String.intercalate "; "
            (errors ++ fails.map fun pe => pe.1 ++ ": " ++ pe.2),
          errors ++ fails.map fun pe => pe.1 ++ ": " ++ pe.2),
        tried ++ fails.map Prod.fst) := by
  intro fails
  induction fails with
  | nil => intro errors tried; simp [APIManager.fallbackAux]
  | cons pe rest ih =>
    intro errors tried
    simp only [List.map_cons, APIManager.fallbackAux]
    rw [ih]
    simp

/-- Accumulator lemma: the first success short-circuits the loop. -/
theorem fallbackAux_firstOk :
    ∀ (pre : List (String × String)) (errors tried : List String) (nome : String)
      (v : Dec) (post : List Client),
    APIManager.fallbackAux errors tried
        ((pre.map fun pe => ⟨pe.1, .error pe.2⟩) ++ ⟨nome, .ok v⟩ :: post)
      = (.ok v, tried ++ pre.map Prod.fst ++ [nome]) := by
  intro pre
  induction pre with
  | nil => intro errors tried nome v post; simp [APIManager.fallbackAux]
  | cons pe rest ih =>
    intro errors tried nome v post
    simp only [List.map_cons, List.cons_append, APIManager.fallbackAux, List.append_eq]
    rw [ih]
    simp

/-- Claim C3: for every ordered provider list, if some provider
succeeds then the first succeeding provider's value is returned and no
later provider is invoked (the invocation log ends at it), each earlier
`APIError` having been recorded and skipped; and if every provider
fails, a single aggregate `APIError` is raised whose message is
"Todas as APIs falharam: " followed by every provider's
"name: message", joined with "; " in provider order (the structured
list also lands in the error details). -/
theorem claim_C3 :
    (∀ (pre : List (String × String)) (nome : String) (v : Dec) (post : List Client),
      APIManager.executarComFallback
          ((pre.map fun pe => ⟨pe.1, .error pe.2⟩) ++ ⟨nome, .ok v⟩ :: post)
        = (.ok v, pre.map Prod.fst ++ [nome]))
    ∧ (∀ (fails : List (String × String)),
      APIManager.executarComFallback (fails.map fun pe => ⟨pe.1, .error pe.2⟩)
        = (.error ("Todas as APIs falharam: " ++ String.intercalate "; "
              (fails.map fun pe => pe.1 ++ ": " ++ pe.2),
            fails.map fun pe => pe.1 ++ ": " ++ pe.2),
          fails.map Prod.fst)) := by
  constructor
  · intro pre nome v post
    have h := fallbackAux_firstOk pre [] [] nome v post
    simpa [APIManager.executarComFallback] using h
  · intro fails
    have h := fallbackAux_allFail fails [] []
    simpa [APIManager.executarComFallback] using h

/-! ### Claim theorems: keyed-provider envelope (C4) -/

/-- Counterexample to claim C4 as stated: an envelope whose `result`
field holds a value other than the success sentinel (`"maintenance"`,
not `"success"`) is NOT treated as an application error — `_tratar_erro`
only reacts to the exact value `"error"` — and `obter_taxa_par`
processes the payload as a success. -/
theorem claim_C4_counterexample :
    ExchangeRateClient.tratarErro ⟨some "maintenance", some "quota-reached", some ⟨5, 0⟩⟩
      = .ok ()
    ∧ ExchangeRateClient.obterTaxaPar
        ⟨some "maintenance", some "quota-reached", some ⟨5, 0⟩⟩ = .ok ⟨5, 0⟩
    ∧ some "maintenance" ≠ some "success" :=
  ⟨rfl, rfl, by decide⟩

/-- Claim C4 (amended): only envelopes whose `result` field equals the
error sentinel `"error"` are treated as application errors and raised
as `APIError` — the check reads the parsed body only, so it fires even
under HTTP 200; every other `result` value passes the envelope check.
Known error types map to their fixed human messages and any
unrecognized type raises with the generic "Erro da API: {type}" message
rather than being silently ignored. -/
theorem claim_C4 :
    ∀ (data : ERResponse),
    (data.result = some "error" →
      ExchangeRateClient.tratarErro data
        = .error ((ExchangeRateClient.mensagens (data.errorType.getD "unknown")).getD
            ("Erro da API: " ++ data.errorType.getD "unknown")))
    ∧ (data.result ≠ some "error" → ExchangeRateClient.tratarErro data = .ok ())
    ∧ (∀ (t : String) (r : Option Dec), ExchangeRateClient.mensagens t = none →
      ExchangeRateClient.tratarErro ⟨some "error", some t, r⟩
        = .error ("Erro da API: " ++ t))
    ∧ ExchangeRateClient.tratarErro ⟨some "error", some "invalid-key", none⟩
        = .error "API key inválida" := by
  intro data
  refine ⟨fun h => ?_, fun h => ?_, fun t r h => ?_, rfl⟩
  · simp [ExchangeRateClient.tratarErro, h]
  · simp [ExchangeRateClient.tratarErro, h]
  · simp [ExchangeRateClient.tratarErro, h]

/-- Witness for C4: the error sentinel with an unrecognized type raises
the generic message; a non-error sentinel passes; a known type maps to
its fixed message. -/
theorem claim_C4_witness :
    ExchangeRateClient.tratarErro ⟨some "error", some "weird-type", none⟩
      = .error ("Erro da API: " ++ "weird-type")
    ∧ ExchangeRateClient.tratarErro ⟨some "success", none, some ⟨5, 0⟩⟩ = .ok ()
    ∧ ExchangeRateClient.tratarErro
        ⟨some "error", some "quota-reached", none⟩
      = .error ((ExchangeRateClient.mensagens
            ((some "quota-reached").getD "unknown")).getD
          ("Erro da API: " ++ (some "quota-reached").getD "unknown")) :=
  ⟨(claim_C4 ⟨some "error", some "weird-type", none⟩).2.2.1 "weird-type" none rfl,
    (claim_C4 ⟨some "success", none, some ⟨5, 0⟩⟩).2.1 (by decide),
    (claim_C4 ⟨some "error", some "quota-reached", none⟩).1 rfl⟩

/-! ### Claim theorem: cache read semantics (C7) -/

/-- Claim C7: `CacheManager.get` is a total function of the state (no
branch raises) that behaves case by case as specified: an in-memory
entry with a fresh timestamp is returned unchanged; an in-memory entry
whose timestamp is missing or aged at least TTL is deleted from both
tiers and absent is returned; with no in-memory entry, a decodable
persisted entry younger than TTL is promoted into memory (with the
persisted timestamp) and returned, an expired persisted entry is
deleted from disk and absent returned, a corrupt (undecodable)
persisted entry is deleted from disk and absent returned exactly like
expiry, and a wholly absent key returns absent with no state change. -/
theorem claim_C7 :
    ∀ (ttl now : ℤ) (c : CacheState) (key : String),
    (∀ v ts, c.mem key = some v → c.memTs key = some ts → now - ts < ttl →
      CacheManager.get ttl now c key = (some v, c))
    ∧ (∀ v ts, c.mem key = some v → c.memTs key = some ts → ¬ now - ts < ttl →
      CacheManager.get ttl now c key = (none, CacheManager.delete c key))
    ∧ (∀ v, c.mem key = some v → c.memTs key = none →
      CacheManager.get ttl now c key = (none, CacheManager.delete c key))
    ∧ (∀ ts v, c.mem key = none → c.disk key = some (.entry ts v) → now - ts < ttl →
      CacheManager.get ttl now c key
        = (some v, ⟨upd c.mem key (some v), upd c.memTs key (some ts), c.disk⟩))
    ∧ (∀ ts v, c.mem key = none → c.disk key = some (.entry ts v) → ¬ now - ts < ttl →
      CacheManager.get ttl now c key = (none, ⟨c.mem, c.memTs, upd c.disk key none⟩))
    ∧ (c.mem key = none → c.disk key = some .corrupt →
      CacheManager.get ttl now c key = (none, ⟨c.mem, c.memTs, upd c.disk key none⟩))
    ∧ (c.mem key = none → c.disk key = none →
      CacheManager.get ttl now c key = (none, c)) := by
  intro ttl now c key
  refine ⟨fun v ts h1 h2 h3 => ?_, fun v ts h1 h2 h3 => ?_, fun v h1 h2 => ?_,
    fun ts v h1 h2 h3 => ?_, fun ts v h1 h2 h3 => ?_, fun h1 h2 => ?_, fun h1 h2 => ?_⟩
  · simp [CacheManager.get, h1, h2, h3]
  · simp [CacheManager.get, h1, h2, h3]
  · simp [CacheManager.get, h1, h2]
  · simp [CacheManager.get, h1, h2, h3]
  · simp [CacheManager.get, h1, h2, h3]
  · simp [CacheManager.get, h1, h2]
  · simp [CacheManager.get, h1, h2]

/-- Witness for C7 on a concrete two-tier state with TTL 10: a fresh
memory hit, an expired memory entry, a fresh disk promotion, an expired
disk entry, a corrupt disk entry, and a missing key. -/
theorem claim_C7_witness :
    (CacheManager.get 10 5
        ⟨fun k => if k = "m" then some ⟨1, 0⟩ else none,
          fun k => if k = "m" then some 0 else none,
          fun k => if k = "d" then some (.entry 0 ⟨2, 0⟩)
            else if k = "x" then some .corrupt else none⟩ "m").1 = some ⟨1, 0⟩
    ∧ (CacheManager.get 10 99
        ⟨fun k => if k = "m" then some ⟨1, 0⟩ else none,
          fun k => if k = "m" then some 0 else none,
          fun k => if k = "d" then some (.entry 0 ⟨2, 0⟩)
            else if k = "x" then some .corrupt else none⟩ "m").1 = none
    ∧ (CacheManager.get 10 5
        ⟨fun k => if k = "m" then some ⟨1, 0⟩ else none,
          fun k => if k = "m" then some 0 else none,
          fun k => if k = "d" then some (.entry 0 ⟨2, 0⟩)
            else if k = "x" then some .corrupt else none⟩ "d").1 = some ⟨2, 0⟩
    ∧ (CacheManager.get 10 99
        ⟨fun k => if k = "m" then some ⟨1, 0⟩ else none,
          fun k => if k = "m" then some 0 else none,
          fun k => if k = "d" then some (.entry 0 ⟨2, 0⟩)
            else if k = "x" then some .corrupt else none⟩ "d").1 = none
    ∧ (CacheManager.get 10 5
        ⟨fun k => if k = "m" then some ⟨1, 0⟩ else none,
          fun k => if k = "m" then some 0 else none,
          fun k => if k = "d" then some (.entry 0 ⟨2, 0⟩)
            else if k = "x" then some .corrupt else none⟩ "x").1 = none
    ∧ (CacheManager.get 10 5
        ⟨fun k => if k = "m" then some ⟨1, 0⟩ else none,
          fun k => if k = "m" then some 0 else none,
          fun k => if k = "d" then some (.entry 0 ⟨2, 0⟩)
            else if k = "x" then some .corrupt else none⟩ "zz").1 = none :=
  ⟨congrArg Prod.fst ((claim_C7 10 5 _ "m").1 ⟨1, 0⟩ 0 rfl rfl (by decide)),
    congrArg Prod.fst ((claim_C7 10 99 _ "m").2.1 ⟨1, 0⟩ 0 rfl rfl (by decide)),
    congrArg Prod.fst ((claim_C7 10 5 _ "d").2.2.2.1 0 ⟨2, 0⟩ rfl rfl (by decide)),
    congrArg Prod.fst ((claim_C7 10 99 _ "d").2.2.2.2.1 0 ⟨2, 0⟩ rfl rfl (by decide)),
    congrArg Prod.fst ((claim_C7 10 5 _ "x").2.2.2.2.2.1 rfl rfl),
    congrArg Prod.fst ((claim_C7 10 5 _ "zz").2.2.2.2.2.2 rfl rfl)⟩

/-! ### Claim theorems: cache write atomicity (C5) -/

/-- Counterexample to claim C5 as stated: from a state whose persisted
entry for `"k"` is valid, a `set` that fails after its truncating
`open` (two of three primitive steps completed) leaves the persisted
entry for `"k"` neither equal to the old valid entry nor equal to the
completed write — it is truncated to a corrupt payload, because the
code opens the final path directly with mode `'w'` and uses no
temporary file. -/
theorem claim_C5_counterexample :
    (CacheState.mk (fun _ => none) (fun _ => none)
        (fun k => if k = "k" then some (.entry 0 ⟨7, 0⟩) else none)).disk "k"
      = some (.entry 0 ⟨7, 0⟩)
    ∧ ¬ ((CacheManager.setSteps 5
          (CacheState.mk (fun _ => none) (fun _ => none)
            (fun k => if k = "k" then some (.entry 0 ⟨7, 0⟩) else none))
          "k" ⟨9, 0⟩ 2).disk "k"
        = some (.entry 0 ⟨7, 0⟩)
      ∨ (CacheManager.setSteps 5
          (CacheState.mk (fun _ => none) (fun _ => none)
            (fun k => if k = "k" then some (.entry 0 ⟨7, 0⟩) else none))
          "k" ⟨9, 0⟩ 2).disk "k"
        = (CacheManager.set 5
            (CacheState.mk (fun _ => none) (fun _ => none)
              (fun k => if k = "k" then some (.entry 0 ⟨7, 0⟩) else none))
            "k" ⟨9, 0⟩).disk "k") := by
  refine ⟨rfl, ?_⟩
  intro h
  rcases h with h | h <;> simp [CacheManager.setSteps, CacheManager.set, upd] at h

/-- Claim C5 (amended): a completed `set` writes both tiers; but the
persisted write opens the final path with truncating mode `'w'` and no
temporary file, so a write failing between the open and the completed
`json.dump` leaves the previously valid persisted entry truncated to a
corrupt payload (the in-memory tiers are already updated at that
point); the corruption is self-healing rather than fatal — in a fresh
process (empty memory tiers over the surviving disk) `get` deletes the
corrupt entry and reports a miss. -/
theorem claim_C5 :
    ∀ (c : CacheState) (key : String) (now : ℤ) (v : Dec),
    CacheManager.setSteps now c key v 3 = CacheManager.set now c key v
    ∧ (CacheManager.setSteps now c key v 2).disk key = some .corrupt
    ∧ (CacheManager.setSteps now c key v 2).mem key = some v
    ∧ (∀ ttl now2,
      CacheManager.get ttl now2 (freshProcess (CacheManager.setSteps now c key v 2)) key
        = (none, ⟨fun _ => none, fun _ => none,
            upd (CacheManager.setSteps now c key v 2).disk key none⟩)) := by
  intro c key now v
  refine ⟨rfl, by simp [CacheManager.setSteps, upd], by simp [CacheManager.setSteps, upd],
    fun ttl now2 => ?_⟩
  simp [CacheManager.get, freshProcess, CacheManager.setSteps, upd]

/-! ### Claim theorems: cached rates and binary floats (C2) -/

set_option maxRecDepth 100000 in
/-- Counterexample to claim C2 as stated: with a provider rate of
0.1234567890123456789 (19 significant digits), a first conversion on an
empty cache stores `float(taxa)` — the binary64 value, not the raw
decimal rate (the stored value differs in value from the fetched rate)
— and a second conversion of the same pair one second later, served
from the cache with no provider call, uses the rate
0.12345678901234568 read back through `Decimal(str(float))`, which is
not the rate that was fetched and stored. -/
theorem claim_C2_counterexample :
    ((ConversorMoedas.converter ⟨fun _ _ => .ok ⟨1234567890123456789, -19⟩⟩ 3600 0
        emptyCache ⟨100, 0⟩ "USD" "BRL").2.1.mem "taxa:USD:BRL"
      = some (toFloat53 ⟨1234567890123456789, -19⟩))
    ∧ Dec.veq (toFloat53 ⟨1234567890123456789, -19⟩) ⟨1234567890123456789, -19⟩ = false
    ∧ (match (ConversorMoedas.converter ⟨fun _ _ => .ok ⟨1234567890123456789, -19⟩⟩ 3600 1
          ((ConversorMoedas.converter ⟨fun _ _ => .ok ⟨1234567890123456789, -19⟩⟩ 3600 0
            emptyCache ⟨100, 0⟩ "USD" "BRL").2.1) ⟨100, 0⟩ "USD" "BRL").1 with
        | .ok conv => conv.taxa
        | _ => ⟨0, 0⟩) = ⟨12345678901234568, -17⟩
    ∧ Dec.veq ⟨12345678901234568, -17⟩ ⟨1234567890123456789, -19⟩ = false
    ∧ (ConversorMoedas.converter ⟨fun _ _ => .ok ⟨1234567890123456789, -19⟩⟩ 3600 1
        ((ConversorMoedas.converter ⟨fun _ _ => .ok ⟨1234567890123456789, -19⟩⟩ 3600 0
          emptyCache ⟨100, 0⟩ "USD" "BRL").2.1) ⟨100, 0⟩ "USD" "BRL").2.2 = false :=
  ⟨rfl, by decide, rfl, by decide, rfl⟩

/-- Claim C2 (amended): on a cache miss the fetched rate is stored as
the binary floating-point value `float(taxa)`; every later convert of
the same pair within the TTL is served from the cache with no provider
call and uses `Decimal(str(float))` of the stored value as its rate —
a value equal to the fetched rate exactly when the rate survives the
binary64 shortest-repr round-trip (as 5.0745 does; rates beyond 17
significant digits do not, see the counterexample). -/
theorem claim_C2 :
    ∀ (env : APIEnv) (ttl now : ℤ) (cache : CacheState) (valor : Dec)
      (de para : String) (t : Dec),
    0 < valor.mant → normCode de ≠ normCode para →
    (CacheManager.get ttl now cache (keyFor (normCode de) (normCode para))).1 = none →
    env.obterTaxaPar (normCode de) (normCode para) = .ok t →
    ((ConversorMoedas.converter env ttl now cache valor de para).2.1.mem
        (keyFor (normCode de) (normCode para)) = some (toFloat53 t))
    ∧ (∀ (now2 : ℤ) (valor2 : Dec), 0 < valor2.mant → now2 - now < ttl →
      (ConversorMoedas.converter env ttl now2
          ((ConversorMoedas.converter env ttl now cache valor de para).2.1)
          valor2 de para).1
        = converterCompute valor2 (floatRepr (toFloat53 t)) (normCode de) (normCode para)
      ∧ (ConversorMoedas.converter env ttl now2
          ((ConversorMoedas.converter env ttl now cache valor de para).2.1)
          valor2 de para).2.2 = false)
    ∧ Dec.veq (floatRepr (toFloat53 ⟨50745, -4⟩)) ⟨50745, -4⟩ = true := by
  intro env ttl now cache valor de para t hv hne hmiss hapi
  rcases hget : CacheManager.get ttl now cache (keyFor (normCode de) (normCode para))
    with ⟨o, c1⟩
  have ho : o = none := by rw [hget] at hmiss; exact hmiss
  subst ho
  have hstate : (ConversorMoedas.converter env ttl now cache valor de para).2.1
      = CacheManager.set now c1 (keyFor (normCode de) (normCode para)) (toFloat53 t) := by
    simp [ConversorMoedas.converter, not_le.mpr hv, hne, hget, hapi]
  refine ⟨?_, fun now2 valor2 hv2 hfresh => ?_, by decide⟩
  · rw [hstate]; simp [CacheManager.set, upd]
  · set s1 := (ConversorMoedas.converter env ttl now cache valor de para).2.1 with hs1
    have hget2 : CacheManager.get ttl now2 s1 (keyFor (normCode de) (normCode para))
        = (some (toFloat53 t), s1) := by
      rw [hstate]
      simp [CacheManager.get, CacheManager.set, upd, hfresh]
    constructor
    · simp [ConversorMoedas.converter, not_le.mpr hv2, hne, hget2]
    · simp [ConversorMoedas.converter, not_le.mpr hv2, hne, hget2]

/-- Witness for C2 (amended) at the 5.0745 scenario: the stored cache
value is the binary64 value of the fetched rate, and the second call a
second later is served from the cache using the round-tripped rate. -/
theorem claim_C2_witness :
    ((ConversorMoedas.converter ⟨fun _ _ => .ok ⟨50745, -4⟩⟩ 3600 0 emptyCache
        ⟨100, 0⟩ "USD" "BRL").2.1.mem (keyFor (normCode "USD") (normCode "BRL"))
      = some (toFloat53 ⟨50745, -4⟩))
    ∧ ((ConversorMoedas.converter ⟨fun _ _ => .ok ⟨50745, -4⟩⟩ 3600 1
        ((ConversorMoedas.converter ⟨fun _ _ => .ok ⟨50745, -4⟩⟩ 3600 0 emptyCache
          ⟨100, 0⟩ "USD" "BRL").2.1) ⟨100, 0⟩ "USD" "BRL").1
      = converterCompute ⟨100, 0⟩ (floatRepr (toFloat53 ⟨50745, -4⟩))
          (normCode "USD") (normCode "BRL")) :=
  ⟨(claim_C2 ⟨fun _ _ => .ok ⟨50745, -4⟩⟩ 3600 0 emptyCache ⟨100, 0⟩ "USD" "BRL"
      ⟨50745, -4⟩ (by decide) (by decide) rfl rfl).1,
    ((claim_C2 ⟨fun _ _ => .ok ⟨50745, -4⟩⟩ 3600 0 emptyCache ⟨100, 0⟩ "USD" "BRL"
      ⟨50745, -4⟩ (by decide) (by decide) rfl rfl).2.1 1 ⟨100, 0⟩ (by decide)
      (by decide)).1⟩

/-! ### Claim theorems: batch conversion (C8, C10) -/

/-- Origin of every element of the batch loop's output: it came from a
successful `converter` call on some listed target different from the
source. -/
theorem multiploAux_mem :
    ∀ (env : APIEnv) (ttl now : ℤ) (valor : Dec) (de : String) (ms : List String)
      (cache : CacheState) (c : Conversao),
    c ∈ (ConversorMoedas.multiploAux env ttl now valor de cache ms).1 →
    ∃ m, m ∈ ms ∧ m ≠ de ∧ c.moeda_origem = normCode de
      ∧ c.moeda_destino = normCode m ∧ 0 < c.valor_convertido.mant := by
  intro env ttl now valor de ms
  induction ms with
  | nil =>
    intro cache c hc
    simp [ConversorMoedas.multiploAux] at hc
  | cons m rest ih =>
    intro cache c hc
    by_cases hm : m = de
    · simp only [ConversorMoedas.multiploAux, if_pos hm] at hc
      obtain ⟨m', h1, h2, h3, h4, h5⟩ := ih cache c hc
      exact ⟨m', List.mem_cons_of_mem _ h1, h2, h3, h4, h5⟩
    · simp only [ConversorMoedas.multiploAux, if_neg hm] at hc
      rcases hconv : ConversorMoedas.converter env ttl now cache valor de m with ⟨r, c1, b⟩
      rw [hconv] at hc
      cases r with
      | ok conv =>
        dsimp only at hc
        rcases List.mem_cons.mp hc with hceq | htail
        · subst hceq
          obtain ⟨_, ho, hd, _, _, _, hq⟩ := converter_ok_fields hconv
          exact ⟨m, List.mem_cons_self m rest, hm, ho, hd, hq⟩
        · obtain ⟨m', h1, h2, h3, h4, h5⟩ := ih c1 c htail
          exact ⟨m', List.mem_cons_of_mem _ h1, h2, h3, h4, h5⟩
      | error e =>
        dsimp only at hc
        obtain ⟨m', h1, h2, h3, h4, h5⟩ := ih c1 c hc
        exact ⟨m', List.mem_cons_of_mem _ h1, h2, h3, h4, h5⟩

/-- Claim C8: every conversion in the batch result originates from a
normalized listed target that differs from the normalized source (so
targets equal to the source are skipped and everything returned is a
successful conversion with a positive converted amount); and in the
spec's example — `convertMultiple(100, USD, [BRL, XXX, EUR])` with XXX
unsupported (every provider fails on it) — the batch returns exactly
the BRL and EUR conversions in order, omitting XXX, without raising. -/
theorem claim_C8 :
    (∀ (env : APIEnv) (ttl now : ℤ) (cache : CacheState) (valor : Dec)
      (de : String) (paras : List String) (c : Conversao),
      c ∈ (ConversorMoedas.converterMultiplo env ttl now cache valor de paras).1.conversoes →
      c.moeda_origem = normCode (normCode de)
      ∧ c.moeda_destino
          ∈ ((paras.map normCode).filter (fun x => x != normCode de)).map normCode
      ∧ 0 < c.valor_convertido.mant)
    ∧ ((ConversorMoedas.converterMultiplo
          ⟨fun _ m => if m = "BRL" then .ok ⟨50745, -4⟩
            else if m = "EUR" then .ok ⟨9215, -4⟩
            else .error "Todas as APIs falharam: Frankfurter: Moeda não suportada; ExchangeRate-API: Moeda não suportada"⟩
          3600 0 emptyCache ⟨100, 0⟩ "USD"
          ["BRL", "XXX", "EUR"]).1.conversoes.map (fun c => c.moeda_destino))
        = ["BRL", "EUR"] := by
  constructor
  · intro env ttl now cache valor de paras c hc
    simp only [ConversorMoedas.converterMultiplo] at hc
    obtain ⟨m, hmem, hne, ho, hd, hq⟩ :=
      multiploAux_mem env ttl now valor (normCode de) (paras.map normCode) cache c hc
    refine ⟨ho, ?_, hq⟩
    rw [hd]
    exact List.mem_map_of_mem _ (List.mem_filter.mpr ⟨hmem, by simp [hne]⟩)
  · rfl

/-- Witness for C8: the general origin property applied to the BRL
conversion of the concrete batch. -/
theorem claim_C8_witness :
    (Conversao.mk ⟨100, 0⟩ ⟨50745, -2⟩ "USD" "BRL" ⟨50745, -4⟩
        ⟨1970637501231648438269780274, -28⟩).moeda_origem = normCode (normCode "USD")
    ∧ (Conversao.mk ⟨100, 0⟩ ⟨50745, -2⟩ "USD" "BRL" ⟨50745, -4⟩
        ⟨1970637501231648438269780274, -28⟩).moeda_destino
      ∈ ((["BRL", "XXX", "EUR"].map normCode).filter
          (fun x => x != normCode "USD")).map normCode
    ∧ 0 < (Conversao.mk ⟨100, 0⟩ ⟨50745, -2⟩ "USD" "BRL" ⟨50745, -4⟩
        ⟨1970637501231648438269780274, -28⟩).valor_convertido.mant :=
  claim_C8.1
    ⟨fun _ m => if m = "BRL" then .ok ⟨50745, -4⟩
      else if m = "EUR" then .ok ⟨9215, -4⟩
      else .error "Todas as APIs falharam: Frankfurter: Moeda não suportada; ExchangeRate-API: Moeda não suportada"⟩
    3600 0 emptyCache ⟨100, 0⟩ "USD" ["BRL", "XXX", "EUR"]
    ⟨⟨100, 0⟩, ⟨50745, -2⟩, "USD", "BRL", ⟨50745, -4⟩,
      ⟨1970637501231648438269780274, -28⟩⟩ (by decide)

/-- Batch loop under a non-positive amount: every non-skipped target's
`converter` call raises `InvalidAmount`, is caught and omitted, so the
loop returns no conversions and leaves the cache untouched. -/
theorem multiploAux_nonpos :
    ∀ (env : APIEnv) (ttl now : ℤ) (valor : Dec) (de : String)
      (ms : List String) (cache : CacheState), valor.mant ≤ 0 →
    ConversorMoedas.multiploAux env ttl now valor de cache ms = ([], cache) := by
  intro env ttl now valor de ms
  induction ms with
  | nil => intro cache _; rfl
  | cons m rest ih =>
    intro cache hv
    by_cases hm : m = de
    · simp only [ConversorMoedas.multiploAux, if_pos hm]
      exact ih cache hv
    · simp only [ConversorMoedas.multiploAux, if_neg hm, converter_nonpos hv]
      exact ih cache hv

/-- Claim C10: for every amount ≤ 0 and every target list,
`converter_multiplo` does not raise `InvalidAmount` — each per-target
failure is caught and logged — and returns a batch whose conversions
list is empty (every target omitted), with the cache untouched. -/
theorem claim_C10 :
    ∀ (env : APIEnv) (ttl now : ℤ) (cache : CacheState) (valor : Dec)
      (de : String) (paras : List String), valor.mant ≤ 0 →
    (ConversorMoedas.converterMultiplo env ttl now cache valor de paras).1
      = ⟨valor, normCode de, []⟩
    ∧ (ConversorMoedas.converterMultiplo env ttl now cache valor de paras).2 = cache := by
  intro env ttl now cache valor de paras hv
  have h := multiploAux_nonpos env ttl now valor (normCode de) (paras.map normCode) cache hv
  exact ⟨by simp [ConversorMoedas.converterMultiplo, h],
    by simp [ConversorMoedas.converterMultiplo, h]⟩

/-- Witness for C10: `convertMultiple(-5, USD, [BRL, EUR])` returns an
empty batch without raising and leaves the cache untouched. -/
theorem claim_C10_witness :
    (ConversorMoedas.converterMultiplo ⟨fun _ _ => .ok ⟨50745, -4⟩⟩ 3600 0 emptyCache
        ⟨-5, 0⟩ "USD" ["BRL", "EUR"]).1 = ⟨⟨-5, 0⟩, normCode "USD", []⟩
    ∧ (ConversorMoedas.converterMultiplo ⟨fun _ _ => .ok ⟨50745, -4⟩⟩ 3600 0 emptyCache
        ⟨-5, 0⟩ "USD" ["BRL", "EUR"]).2 = emptyCache :=
  claim_C10 ⟨fun _ _ => .ok ⟨50745, -4⟩⟩ 3600 0 emptyCache ⟨-5, 0⟩ "USD"
    ["BRL", "EUR"] (by decide)
